import Mathlib

/-!
# gohl-provider-system: the check evaluator

A shallow embedding of `src/main.go` (and of the mock gatherer of
`src/main_test.go`) together with theorems about `SystemProvider.Analyze`.

Modelling conventions.

* A Go `float64` is a `Float64`: NaN, a signed infinity, or a signed dyadic
  number `m * 2^e`.  Comparison, multiplication and the conversion from `int`
  follow IEEE-754 binary64 (round to nearest, ties to even).
* A Go pointer is an `Option` (`none` is `nil`), a Go `error` is an
  `Option GoError` (`none` is `nil`).
* Dereferencing a nil pointer panics: `Analyze` returns in `Except Panic`.
* A slice is a `List`; the nil slice and the empty slice are both `[]`.
-/

namespace ProviderSystem

/-! ## float64 -/

/-- A value of Go's `float64`.  `fin neg m e` denotes `(-1)^neg * m * 2^e`;
negative zero is `fin true 0 e`. -/
inductive Float64 where
  | nan
  | inf (neg : Bool)
  | fin (neg : Bool) (m : Nat) (e : Int)
  deriving DecidableEq

/-- The signed mantissa of a finite value. -/
def signed (neg : Bool) (m : Nat) : Int :=
  if neg then -(m : Int) else (m : Int)

/-- Strict order of two dyadic numbers `s₁ * 2^e₁ < s₂ * 2^e₂`, decided on
integers after scaling both to the smaller exponent. -/
def dyLt (s₁ e₁ s₂ e₂ : Int) : Bool :=
  decide (s₁ * 2 ^ (e₁ - min e₁ e₂).toNat < s₂ * 2 ^ (e₂ - min e₁ e₂).toNat)

/-- Weak order of two dyadic numbers `s₁ * 2^e₁ ≤ s₂ * 2^e₂`. -/
def dyLe (s₁ e₁ s₂ e₂ : Int) : Bool :=
  decide (s₁ * 2 ^ (e₁ - min e₁ e₂).toNat ≤ s₂ * 2 ^ (e₂ - min e₁ e₂).toNat)

namespace Float64

/-- Go's `x < y` on `float64`: false as soon as one side is NaN. -/
def lt : Float64 → Float64 → Bool
  | nan, _ => false
  | _, nan => false
  | inf a, inf b => a && !b
  | inf a, fin _ _ _ => a
  | fin _ _ _, inf b => !b
  | fin n₁ m₁ e₁, fin n₂ m₂ e₂ => dyLt (signed n₁ m₁) e₁ (signed n₂ m₂) e₂

/-- Go's `x > y` on `float64`. -/
def gt (x y : Float64) : Bool := lt y x

/-- Go's `x <= y` on `float64`: false as soon as one side is NaN. -/
def le : Float64 → Float64 → Bool
  | nan, _ => false
  | _, nan => false
  | inf a, inf b => a || !b
  | inf a, fin _ _ _ => a
  | fin _ _ _, inf b => !b
  | fin n₁ m₁ e₁, fin n₂ m₂ e₂ => dyLe (signed n₁ m₁) e₁ (signed n₂ m₂) e₂

/-- Go's `x >= y` on `float64`. -/
def ge (x y : Float64) : Bool := le y x

/-- Number of binary digits of `m`, by halving; `fuel` bounds the recursion. -/
def bitLenAux : Nat → Nat → Nat
  | 0, _ => 0
  | fuel + 1, m => if m = 0 then 0 else bitLenAux fuel (m / 2) + 1

/-- Number of binary digits of `m` (`0` for `0`). -/
def bitLen (m : Nat) : Nat := bitLenAux m m

/-- Rounding of the exact dyadic `(-1)^neg * m * 2^e` to binary64: round to
nearest, ties to even, with gradual underflow and overflow to infinity. -/
def round (neg : Bool) (m : Nat) (e : Int) : Float64 :=
  if m = 0 then fin neg 0 0
  else
    let top : Int := (bitLen m : Int) - 1 + e
    let u : Int := max (top - 52) (-1074)
    if u ≤ e then
      if top > 1023 then inf neg else fin neg m e
    else
      let s : Nat := (u - e).toNat
      let q : Nat := m / 2 ^ s
      let r : Nat := m % 2 ^ s
      let half : Nat := 2 ^ (s - 1)
      let q1 : Nat := if r > half ∨ (r = half ∧ q % 2 = 1) then q + 1 else q
      if (bitLen q1 : Int) + u > 1024 then inf neg else fin neg q1 u

/-- Go's conversion `float64(n)` of an `int`. -/
def ofInt (n : Int) : Float64 :=
  round (decide (n < 0)) n.natAbs 0

/-- Go's `x * y` on `float64`. -/
def mul : Float64 → Float64 → Float64
  | nan, _ => nan
  | _, nan => nan
  | inf a, inf b => inf (a != b)
  | inf a, fin n m _ => if m = 0 then nan else inf (a != n)
  | fin n m _, inf b => if m = 0 then nan else inf (n != b)
  | fin n₁ m₁ e₁, fin n₂ m₂ e₂ => round (n₁ != n₂) (m₁ * m₂) (e₁ + e₂)

/-- Go's conversion `int(x)` of a `float64` on a 64-bit platform: truncation
toward zero.  When the truncated value is not an `int64` (or `x` is NaN or
infinite) the result is implementation-dependent; it is `ovf` here. -/
def toInt (ovf : Int) : Float64 → Int
  | nan => ovf
  | inf _ => ovf
  | fin neg m e =>
    let t : Nat := if 0 ≤ e then m * 2 ^ e.toNat else m / 2 ^ (-e).toNat
    let v : Int := signed neg t
    if -(2 : Int) ^ 63 ≤ v ∧ v < (2 : Int) ^ 63 then v else ovf

/-- The exact integer `n` as a dyadic number, without any rounding. -/
def exact (n : Int) : Float64 :=
  fin (decide (n < 0)) n.natAbs 0

/-- A finite value is a binary64 number when its mantissa has at most 53
bits and its exponent is in range; NaN and the infinities always are. -/
def IsBinary64 : Float64 → Prop
  | fin _ m e => m < 2 ^ 53 ∧ -1074 ≤ e ∧ e ≤ 971
  | _ => True

/-- The digits of `n`, padded with zeros on the left to width `w`. -/
def padDigits (w n : Nat) : String :=
  let d := toString n
  "".pushn (Char.ofNat 48) (w - d.length) ++ d

/-- The verb `%.<prec>f` of Go's `fmt`: the exact decimal expansion rounded
to `prec` places, ties to even. -/
def formatF (prec : Nat) : Float64 → String
  | nan => "NaN"
  | inf neg => if neg then "-Inf" else "+Inf"
  | fin neg m e =>
    let num : Nat := if 0 ≤ e then m * 2 ^ e.toNat * 10 ^ prec else m * 10 ^ prec
    let den : Nat := if 0 ≤ e then 1 else 2 ^ (-e).toNat
    let q : Nat := num / den
    let r : Nat := num % den
    let q1 : Nat := if 2 * r > den ∨ (2 * r = den ∧ q % 2 = 1) then q + 1 else q
    let body : String :=
      if prec = 0 then toString q1
      else toString (q1 / 10 ^ prec) ++ "." ++ padDigits prec (q1 % 10 ^ prec)
    (if neg then "-" else "") ++ body

end Float64

/-- The constant `90.0`. -/
def ninety : Float64 := Float64.fin false 90 0

/-- The constant `2` of `cores * 2`, converted to `float64`: `1 * 2^1`. -/
def two : Float64 := Float64.fin false 1 1

/-! ## The Go runtime and library -/

/-- What `Analyze` uses of the Go standard library and of the platform: the
formatting of a `float64` under the verb `%.<prec>f`, and the
implementation-dependent result of an out-of-range `int(x)`. -/
structure GoRuntime where
  fmtFloat : Nat → Float64 → String
  intOverflow : Int

/-- The runtime of a 64-bit x86 build: `strconv` formatting, and the
"integer indefinite" value for an out-of-range conversion. -/
def amd64 : GoRuntime where
  fmtFloat := Float64.formatF
  intOverflow := -(2 : Int) ^ 63

/-- A Go `error` value (non-nil). -/
structure GoError where
  msg : String
  deriving DecidableEq

/-- A run-time panic. -/
inductive Panic where
  | nilDereference
  deriving DecidableEq

deriving instance DecidableEq for Except

/-- Dereference of a pointer: a nil pointer panics. -/
def deref {α : Type} : Option α → Except Panic α
  | some a => Except.ok a
  | none => Except.error Panic.nilDereference

/-- A `context.Context`; `Analyze` never looks at it. -/
inductive Context where
  | background
  | todo
  | withValue (parent : Context) (key val : String)
  deriving DecidableEq

/-- A `map[string]string`; `none` is the nil map. -/
abbrev Config := Option (List (String × String))

/-! ## gopsutil and gohl-api types -/

/-- The record `disk.UsageStat` of gopsutil. -/
structure UsageStat where
  Path : String := ""
  Fstype : String := ""
  Total : Nat := 0
  Free : Nat := 0
  Used : Nat := 0
  UsedPercent : Float64 := Float64.fin false 0 0
  InodesTotal : Nat := 0
  InodesUsed : Nat := 0
  InodesFree : Nat := 0
  InodesUsedPercent : Float64 := Float64.fin false 0 0
  deriving DecidableEq

/-- The record `load.AvgStat` of gopsutil. -/
structure AvgStat where
  Load1 : Float64 := Float64.fin false 0 0
  Load5 : Float64 := Float64.fin false 0 0
  Load15 : Float64 := Float64.fin false 0 0
  deriving DecidableEq

/-- Modelled from the spec: the record `api.CheckResult` of the package
gohl-api, whose declaration is not among the sources: "identifier, name,
human description, boolean pass/fail, integer score, integer max-score,
remediation text". -/
structure CheckResult where
  ID : String
  Name : String
  Description : String
  Passed : Bool
  Score : Int
  MaxScore : Int
  Remediation : String
  deriving DecidableEq

/-- Modelled from the spec: the record `api.ScanReport` of the package
gohl-api, whose declaration is not among the sources: "an ordered sequence
of CheckResult plus a plugin identifier". -/
structure ScanReport where
  PluginID : String
  Checks : List CheckResult
  deriving DecidableEq

/-- Modelled from the spec: the record `api.PluginInfo` of the package
gohl-api, whose declaration is not among the sources: "a descriptor
(identifier, display name, version, description, author)". -/
structure PluginInfo where
  ID : String
  Name : String
  Version : String
  Description : String
  Author : String
  deriving DecidableEq

/-! ## main.go -/

/-- The interface `StatsGatherer` (a non-nil value of it).  A read returns a
pointer and an error, each of which may be nil independently of the other;
`GetNumCPU` returns an `int`, 64 bits wide. -/
structure StatsGatherer where
  GetDiskUsage : String → Option UsageStat × Option GoError
  GetLoadAvg : Option AvgStat × Option GoError
  GetNumCPU : Int

/-- The struct `SystemProvider`, behind a non-nil receiver. -/
structure SystemProvider where
  Gatherer : StatsGatherer

/-- The method `SystemProvider.Info`. -/
def SystemProvider.Info (_p : SystemProvider) : PluginInfo where
  ID := "provider-system"
  Name := "System/OS Scanner"
  Version := "0.1.0"
  Description := "Checks basic OS health metrics (Disk, CPU, etc)"
  Author := "GOHL Core"

/-- Lines 61-75 of `Analyze`: the disk check built from a successful read. -/
def diskCheck (rt : GoRuntime) (usage : UsageStat) : CheckResult :=
  let passed : Bool := usage.UsedPercent.lt ninety
  let score : Int := if passed then 10 else 0
  { ID := "SYS-001"
    Name := "Root Disk Usage"
    Description :=
      "Checking if disk usage (" ++ rt.fmtFloat 1 usage.UsedPercent ++ "%) is below 90%"
    Passed := passed
    Score := score
    MaxScore := 10
    Remediation := "Clean up disk space or expand the volume." }

/-- Lines 81-97 of `Analyze`: the load check built from a successful read
and the CPU count. -/
def loadCheck (rt : GoRuntime) (avg : AvgStat) (numCPU : Int) : CheckResult :=
  let cores : Float64 := Float64.ofInt numCPU
  let isOverloaded : Bool := avg.Load5.gt (cores.mul two)
  let score : Int := if !isOverloaded then 10 else 0
  { ID := "SYS-002"
    Name := "System Load (5m)"
    Description :=
      "Load is " ++ rt.fmtFloat 2 avg.Load5 ++ " (Cores: " ++
        toString (cores.toInt rt.intOverflow) ++ ")"
    Passed := !isOverloaded
    Score := score
    MaxScore := 10
    Remediation := "Check running processes, upgrade CPU or optimize workloads." }

/-- The method `SystemProvider.Analyze`.  The result is the returned pair
(report pointer, error), or the panic of a nil dereference. -/
def SystemProvider.Analyze (rt : GoRuntime) (p : SystemProvider) (_ctx : Context)
    (_config : Config) : Except Panic (Option ScanReport × Option GoError) :=
  let checks : List CheckResult := []
  -- CHECK 1: DISK USAGE
  let r₁ := p.Gatherer.GetDiskUsage "/"
  (match r₁.2 with
    | none => (deref r₁.1).map (fun usage => checks ++ [diskCheck rt usage])
    | some _ => Except.ok checks) |>.bind fun checks =>
  -- CHECK 2: SYSTEM LOAD
  let r₂ := p.Gatherer.GetLoadAvg
  (match r₂.2 with
    | none => (deref r₂.1).map (fun avg =>
        checks ++ [loadCheck rt avg p.Gatherer.GetNumCPU])
    | some _ => Except.ok checks) |>.bind fun checks =>
  Except.ok (some { PluginID := "provider-system", Checks := checks }, none)

/-! ## main_test.go -/

/-- The struct `MockStatsGatherer` of the tests. -/
structure MockStatsGatherer where
  DiskUsage : Option UsageStat := none
  DiskError : Option GoError := none
  LoadAvg : Option AvgStat := none
  LoadError : Option GoError := none
  NumCPU : Int := 0

/-- The three methods of `MockStatsGatherer`. -/
def MockStatsGatherer.gatherer (m : MockStatsGatherer) : StatsGatherer where
  GetDiskUsage := fun _ => (m.DiskUsage, m.DiskError)
  GetLoadAvg := (m.LoadAvg, m.LoadError)
  GetNumCPU := m.NumCPU

/-- The mock of `TestAnalyze_HealthySystem`. -/
def healthyMock : MockStatsGatherer where
  DiskUsage := some { UsedPercent := Float64.fin false 50 0 }
  LoadAvg := some { Load5 := Float64.fin false 1 0 }
  NumCPU := 4

/-- The mock of `TestAnalyze_UnhealthySystem`. -/
def unhealthyMock : MockStatsGatherer where
  DiskUsage := some { UsedPercent := Float64.fin false 95 0 }
  LoadAvg := some { Load5 := Float64.fin false 10 0 }
  NumCPU := 2

/-- The mock of `TestAnalyze_HardwareErrors`. -/
def hardwareErrorMock : MockStatsGatherer where
  DiskError := some ⟨"disk failure"⟩
  LoadError := some ⟨"load read error"⟩

/-- The zero value `MockStatsGatherer{}`: every read returns a nil pointer
together with a nil error. -/
def zeroMock : MockStatsGatherer := {}

/-- A mock with a healthy disk whose load read returns a nil pointer with a
nil error. -/
def nilLoadMock : MockStatsGatherer where
  DiskUsage := some { UsedPercent := Float64.fin false 50 0 }

/-- A mock with 2^53 + 3 logical CPUs and a 5-minute load of 2^54 + 8. -/
def hugeMock : MockStatsGatherer where
  DiskUsage := some { UsedPercent := Float64.fin false 50 0 }
  LoadAvg := some { Load5 := Float64.fin false 4503599627370498 2 }
  NumCPU := 9007199254740995

/-- A gatherer that answers like the healthy mock for the path "/" and fails
for every other path. -/
def rootOnlyGatherer : StatsGatherer where
  GetDiskUsage := fun path =>
    if path = "/" then (some { UsedPercent := Float64.fin false 50 0 }, none)
    else (none, some ⟨"no such file or directory"⟩)
  GetLoadAvg := (some { Load5 := Float64.fin false 1 0 }, none)
  GetNumCPU := 4

/-! ## Calls in sequence -/

/-- One call of `Analyze` as a step on the provider: the result, and the
provider after the call.  The method assigns to no field of its receiver and
to no package-level variable. -/
def SystemProvider.AnalyzeStep (rt : GoRuntime) (p : SystemProvider) (ctx : Context)
    (config : Config) :
    Except Panic (Option ScanReport × Option GoError) × SystemProvider :=
  (p.Analyze rt ctx config, p)

/-- The provider after a sequence of earlier calls of `Analyze`. -/
def SystemProvider.afterCalls (rt : GoRuntime) (p : SystemProvider) :
    List (Context × Config) → SystemProvider
  | [] => p
  | (ctx, config) :: rest =>
    SystemProvider.afterCalls rt (p.AnalyzeStep rt ctx config).2 rest

/-! ## Vocabulary of the specification -/

/-- A read succeeded: nil error, and a stat behind the pointer. -/
def readOk {α : Type} (r : Option α × Option GoError) : Bool :=
  r.1.isSome && r.2.isNone

/-- A read failed: non-nil error. -/
def readFailed {α : Type} (r : Option α × Option GoError) : Bool :=
  r.2.isSome

/-- A read broke the convention of Go: nil error, and a nil pointer. -/
def readNilNil {α : Type} (r : Option α × Option GoError) : Bool :=
  r.1.isNone && r.2.isNone

/-- The reads of `Analyze` return a non-nil stat whenever they return a nil
error. -/
def StatsGatherer.WellBehaved (g : StatsGatherer) : Prop :=
  readNilNil (g.GetDiskUsage "/") = false ∧ readNilNil g.GetLoadAvg = false

/-- The checks the disk read contributes to the report: the disk check when
the error is nil and the pointer is not, nothing otherwise. -/
def diskPart (rt : GoRuntime) (g : StatsGatherer) : List CheckResult :=
  match g.GetDiskUsage "/" with
  | (some usage, none) => [diskCheck rt usage]
  | _ => []

/-- The checks the load read contributes to the report. -/
def loadPart (rt : GoRuntime) (g : StatsGatherer) : List CheckResult :=
  match g.GetLoadAvg with
  | (some avg, none) => [loadCheck rt avg g.GetNumCPU]
  | _ => []

/-- The report has a check with identifier `id`, and every such check has
the given verdict, score and maximal score. -/
def ScanReport.Shows (r : ScanReport) (id : String) (passed : Bool)
    (score maxScore : Int) : Prop :=
  (∃ c ∈ r.Checks, c.ID = id) ∧
    ∀ c ∈ r.Checks, c.ID = id →
      c.Passed = passed ∧ c.Score = score ∧ c.MaxScore = maxScore

end ProviderSystem

/-! ## Theorems -/

namespace ProviderSystem

open Float64

/-! ### Auxiliary facts -/

theorem diskCheck_ID (rt : GoRuntime) (u : UsageStat) : (diskCheck rt u).ID = "SYS-001" := rfl

theorem loadCheck_ID (rt : GoRuntime) (a : AvgStat) (n : Int) :
    (loadCheck rt a n).ID = "SYS-002" := rfl

/-- The whole behaviour of `Analyze`: a panic when one of the two reads
returns a nil pointer with a nil error, and otherwise the report made of the
checks of the disk read followed by those of the load read, with a nil
error. -/
theorem Analyze_eq (rt : GoRuntime) (p : SystemProvider) (ctx : Context) (cfg : Config) :
    p.Analyze rt ctx cfg =
      if readNilNil (p.Gatherer.GetDiskUsage "/") = true ∨
          readNilNil p.Gatherer.GetLoadAvg = true then
        Except.error Panic.nilDereference
      else
        Except.ok (some { PluginID := "provider-system",
                          Checks := diskPart rt p.Gatherer ++ loadPart rt p.Gatherer }, none) := by
  unfold SystemProvider.Analyze diskPart loadPart
  rcases hd : p.Gatherer.GetDiskUsage "/" with ⟨_ | du, _ | de⟩ <;>
    rcases hl : p.Gatherer.GetLoadAvg with ⟨_ | la, _ | le⟩ <;>
    simp [readNilNil, deref, Except.map, Except.bind]

/-- What `Analyze` returns, when it returns. -/
theorem Analyze_ok {rt : GoRuntime} {p : SystemProvider} {ctx : Context} {cfg : Config}
    {ro : Option ScanReport} {eo : Option GoError} (h : p.Analyze rt ctx cfg = Except.ok (ro, eo)) :
    readNilNil (p.Gatherer.GetDiskUsage "/") = false ∧
      readNilNil p.Gatherer.GetLoadAvg = false ∧ eo = none ∧
      ro = some { PluginID := "provider-system",
                  Checks := diskPart rt p.Gatherer ++ loadPart rt p.Gatherer } := by
  rw [Analyze_eq] at h
  split at h
  · cases h
  · rename_i hn
    simp only [not_or, Bool.not_eq_true] at hn
    injection h with h
    injection h with h₁ h₂
    exact ⟨hn.1, hn.2, h₂.symm, h₁.symm⟩

/-! ### float64 -/

theorem le_imp_not_lt (x y : Float64) (h : x.le y = true) : y.lt x = false := by
  rcases x with _ | a | ⟨n₁, m₁, e₁⟩ <;> rcases y with _ | b | ⟨n₂, m₂, e₂⟩ <;>
    (try cases a) <;> (try cases b) <;>
    simp_all [Float64.le, Float64.lt, dyLe, dyLt, min_comm]

theorem dyLt_iff (s₁ e₁ s₂ e₂ : Int) :
    dyLt s₁ e₁ s₂ e₂ = true ↔ (s₁ : ℚ) * 2 ^ e₁ < (s₂ : ℚ) * 2 ^ e₂ := by
  unfold dyLt
  rw [decide_eq_true_iff]
  set b := min e₁ e₂ with hb
  have h₁ : 0 ≤ e₁ - b := by have := min_le_left e₁ e₂; omega
  have h₂ : 0 ≤ e₂ - b := by have := min_le_right e₁ e₂; omega
  have k₁ : (2 : ℚ) ^ e₁ = 2 ^ (e₁ - b).toNat * 2 ^ b := by
    rw [← zpow_natCast, Int.toNat_of_nonneg h₁, ← zpow_add₀ (by norm_num)]; congr 1; ring
  have k₂ : (2 : ℚ) ^ e₂ = 2 ^ (e₂ - b).toNat * 2 ^ b := by
    rw [← zpow_natCast, Int.toNat_of_nonneg h₂, ← zpow_add₀ (by norm_num)]; congr 1; ring
  have hpos : (0 : ℚ) < 2 ^ b := by positivity
  rw [k₁, k₂, ← mul_assoc, ← mul_assoc, mul_lt_mul_right hpos]
  constructor
  · intro h; exact_mod_cast h
  · intro h; exact_mod_cast h

theorem bitLenAux_le (fuel : Nat) : ∀ m k : Nat, m < 2 ^ k → bitLenAux fuel m ≤ k := by
  induction fuel with
  | zero => intro m k _; simp [bitLenAux]
  | succ f ih =>
    intro m k h
    unfold bitLenAux
    split
    · exact Nat.zero_le _
    · rename_i hm
      cases k with
      | zero => simp at h; exact absurd h hm
      | succ k =>
        have : m / 2 < 2 ^ k := by
          rw [Nat.div_lt_iff_lt_mul (by norm_num)]; rw [pow_succ] at h; exact h
        exact Nat.succ_le_succ (ih _ _ this)

theorem bitLen_le {m k : Nat} (h : m < 2 ^ k) : bitLen m ≤ k := bitLenAux_le m m k h

theorem lt_congr_left {n₁ n₂ : Bool} {m₁ m₂ : Nat} {e₁ e₂ : Int}
    (h : (signed n₁ m₁ : ℚ) * 2 ^ e₁ = (signed n₂ m₂ : ℚ) * 2 ^ e₂) (y : Float64) :
    (fin n₁ m₁ e₁).lt y = (fin n₂ m₂ e₂).lt y := by
  rcases y with _ | b | ⟨n, m, e⟩
  · rfl
  · rfl
  · simp only [Float64.lt]
    rw [Bool.eq_iff_iff, dyLt_iff, dyLt_iff, h]

theorem round_exact (neg : Bool) {m : Nat} {e : Int} (hm : m ≠ 0) (hb : m < 2 ^ 53)
    (he₁ : -1074 ≤ e) (he₂ : e ≤ 971) : Float64.round neg m e = fin neg m e := by
  have hl := bitLen_le hb
  unfold Float64.round
  simp only [hm, if_false]
  have hu : max ((bitLen m : Int) - 1 + e - 52) (-1074) ≤ e := by
    apply max_le <;> omega
  simp only [hu, if_true]
  have : ¬ ((bitLen m : Int) - 1 + e > 1023) := by omega
  simp only [this, if_false]

theorem signed_natAbs (C : Int) : signed (decide (C < 0)) C.natAbs = C := by
  unfold signed
  by_cases h : C < 0
  · simp only [h, decide_True, if_true]; omega
  · simp only [h, decide_False]; simp; omega

theorem threshold_small (C : Int) (hC : C.natAbs ≤ 2 ^ 53) :
    ∃ n m e, (ofInt C).mul two = fin n m e ∧ (signed n m : ℚ) * 2 ^ e = 2 * C := by
  rcases Nat.lt_or_ge C.natAbs (2 ^ 53) with hlt | hge
  · by_cases h0 : C = 0
    · subst h0
      exact ⟨false, 0, 0, by decide, by simp [signed]⟩
    · have hm : C.natAbs ≠ 0 := by simpa using h0
      refine ⟨decide (C < 0), C.natAbs, 1, ?_, ?_⟩
      · unfold ofInt
        rw [round_exact _ hm hlt (by norm_num) (by norm_num)]
        simp only [two, Float64.mul, mul_one, zero_add, Bool.bne_false]
        exact round_exact _ hm hlt (by norm_num) (by norm_num)
      · rw [signed_natAbs]; ring
  · have h : C.natAbs = 2 ^ 53 := le_antisymm hC hge
    rcases Int.natAbs_eq C with hc | hc
    · rw [h] at hc
      subst hc
      exact ⟨false, 2 ^ 52, 2, by decide, by norm_num [signed]⟩
    · rw [h] at hc
      subst hc
      exact ⟨true, 2 ^ 52, 2, by decide, by norm_num [signed]⟩

/-! ### The checks of a report -/

/-- When neither read returns a nil pointer with a nil error, `Analyze`
returns its report and a nil error. -/
theorem Analyze_returns (rt : GoRuntime) (p : SystemProvider) (ctx : Context) (cfg : Config)
    (hd : readNilNil (p.Gatherer.GetDiskUsage "/") = false)
    (hl : readNilNil p.Gatherer.GetLoadAvg = false) :
    p.Analyze rt ctx cfg =
      Except.ok (some { PluginID := "provider-system",
                        Checks := diskPart rt p.Gatherer ++ loadPart rt p.Gatherer }, none) := by
  rw [Analyze_eq, if_neg]
  simp [hd, hl]

theorem readNilNil_ok {α : Type} {r : Option α × Option GoError} {a : α}
    (h : r = (some a, none)) : readNilNil r = false := by
  subst h; rfl

theorem readNilNil_failed {α : Type} {r : Option α × Option GoError}
    (h : readFailed r = true) : readNilNil r = false := by
  rcases r with ⟨_ | a, _ | e⟩ <;> simp_all [readNilNil, readFailed]

theorem diskPart_ok {rt : GoRuntime} {g : StatsGatherer} {u : UsageStat}
    (h : g.GetDiskUsage "/" = (some u, none)) : diskPart rt g = [diskCheck rt u] := by
  simp [diskPart, h]

theorem diskPart_failed {rt : GoRuntime} {g : StatsGatherer}
    (h : readFailed (g.GetDiskUsage "/") = true) : diskPart rt g = [] := by
  unfold diskPart
  rcases hd : g.GetDiskUsage "/" with ⟨_ | du, _ | de⟩ <;> simp_all [readFailed]

theorem loadPart_ok {rt : GoRuntime} {g : StatsGatherer} {a : AvgStat}
    (h : g.GetLoadAvg = (some a, none)) : loadPart rt g = [loadCheck rt a g.GetNumCPU] := by
  simp [loadPart, h]

theorem loadPart_failed {rt : GoRuntime} {g : StatsGatherer}
    (h : readFailed g.GetLoadAvg = true) : loadPart rt g = [] := by
  unfold loadPart
  rcases hl : g.GetLoadAvg with ⟨_ | la, _ | le⟩ <;> simp_all [readFailed]

theorem mem_diskPart {rt : GoRuntime} {g : StatsGatherer} {c : CheckResult}
    (h : c ∈ diskPart rt g) : ∃ u, g.GetDiskUsage "/" = (some u, none) ∧ c = diskCheck rt u := by
  unfold diskPart at h
  rcases hd : g.GetDiskUsage "/" with ⟨_ | du, _ | de⟩ <;> simp_all

theorem mem_loadPart {rt : GoRuntime} {g : StatsGatherer} {c : CheckResult}
    (h : c ∈ loadPart rt g) :
    ∃ a, g.GetLoadAvg = (some a, none) ∧ c = loadCheck rt a g.GetNumCPU := by
  unfold loadPart at h
  rcases hl : g.GetLoadAvg with ⟨_ | la, _ | le⟩ <;> simp_all

theorem diskPart_length (rt : GoRuntime) (g : StatsGatherer) :
    (diskPart rt g).length = (readOk (g.GetDiskUsage "/")).toNat := by
  unfold diskPart
  rcases hd : g.GetDiskUsage "/" with ⟨_ | du, _ | de⟩ <;> simp [readOk]

theorem loadPart_length (rt : GoRuntime) (g : StatsGatherer) :
    (loadPart rt g).length = (readOk g.GetLoadAvg).toNat := by
  unfold loadPart
  rcases hl : g.GetLoadAvg with ⟨_ | la, _ | le⟩ <;> simp [readOk]

theorem readOk_false_cases {α : Type} (r : Option α × Option GoError) (h : readOk r = false) :
    readNilNil r = true ∨ readFailed r = true := by
  rcases r with ⟨_ | a, _ | e⟩ <;> simp_all [readOk, readNilNil, readFailed]

/-- The verdict of the disk check in a report whose disk read succeeded. -/
theorem shows_disk {rt : GoRuntime} {g : StatsGatherer} {u : UsageStat} {r : ScanReport}
    (hd : g.GetDiskUsage "/" = (some u, none))
    (hr : r.Checks = diskPart rt g ++ loadPart rt g) :
    r.Shows "SYS-001" (u.UsedPercent.lt ninety)
      (if u.UsedPercent.lt ninety = true then 10 else 0) 10 := by
  rw [diskPart_ok hd] at hr
  refine ⟨⟨diskCheck rt u, by simp [hr], rfl⟩, ?_⟩
  intro c hc hid
  rw [hr] at hc
  rcases List.mem_append.mp hc with h | h
  · rw [List.mem_singleton] at h
    subst h
    exact ⟨rfl, rfl, rfl⟩
  · obtain ⟨a, -, rfl⟩ := mem_loadPart h
    rw [loadCheck_ID] at hid
    exact absurd hid (by decide)

/-- The verdict of the load check in a report whose load read succeeded. -/
theorem shows_load {rt : GoRuntime} {g : StatsGatherer} {a : AvgStat} {r : ScanReport}
    (hl : g.GetLoadAvg = (some a, none))
    (hr : r.Checks = diskPart rt g ++ loadPart rt g) :
    r.Shows "SYS-002" (!a.Load5.gt ((ofInt g.GetNumCPU).mul two))
      (if (!a.Load5.gt ((ofInt g.GetNumCPU).mul two)) = true then 10 else 0) 10 := by
  rw [loadPart_ok hl] at hr
  refine ⟨⟨loadCheck rt a g.GetNumCPU, by simp [hr], rfl⟩, ?_⟩
  intro c hc hid
  rw [hr] at hc
  rcases List.mem_append.mp hc with h | h
  · obtain ⟨u, -, rfl⟩ := mem_diskPart h
    rw [diskCheck_ID] at hid
    exact absurd hid (by decide)
  · rw [List.mem_singleton] at h
    subst h
    exact ⟨rfl, rfl, rfl⟩

/-- For a CPU count of magnitude at most 2^53 the threshold `cores * 2` is
the exact number `2 * C`. -/
theorem gt_threshold_small (L : Float64) (C : Int) (hC : C.natAbs ≤ 2 ^ 53) :
    L.gt ((ofInt C).mul two) = L.gt (exact (2 * C)) := by
  obtain ⟨n, m, e, hfin, hval⟩ := threshold_small C hC
  rw [hfin]
  unfold Float64.gt exact
  apply lt_congr_left
  rw [hval, signed_natAbs]
  push_cast
  simp

/-! ### The claims -/

/-- C1. For every gatherer whose disk read for the root path succeeds with
used percentage p: the report produced by Analyze contains the disk check
(ID SYS-001), with Passed = true, Score = 10 and MaxScore = 10 if p < 90.0,
and with Passed = false, Score = 0 and MaxScore = 10 if p >= 90.0.  Analyze
produces that report as soon as the load read does not return a nil pointer
with a nil error. -/
theorem disk_check_verdict (rt : GoRuntime) (p : SystemProvider) (ctx : Context)
    (cfg : Config) (u : UsageStat) (hd : p.Gatherer.GetDiskUsage "/" = (some u, none)) :
    (readNilNil p.Gatherer.GetLoadAvg = false →
        ∃ r, p.Analyze rt ctx cfg = Except.ok (some r, none)) ∧
      ∀ r e, p.Analyze rt ctx cfg = Except.ok (some r, e) →
        (u.UsedPercent.lt ninety = true → r.Shows "SYS-001" true 10 10) ∧
        (u.UsedPercent.ge ninety = true → r.Shows "SYS-001" false 0 10) := by
  constructor
  · intro hl
    exact ⟨_, Analyze_returns rt p ctx cfg (readNilNil_ok hd) hl⟩
  · intro r e hr
    obtain ⟨-, -, -, h⟩ := Analyze_ok hr
    have hc : r.Checks = diskPart rt p.Gatherer ++ loadPart rt p.Gatherer := by
      injection h with h; rw [h]
    have key := shows_disk hd hc
    constructor
    · intro hlt
      rw [hlt] at key
      exact key
    · intro hge
      have hlt : u.UsedPercent.lt ninety = false := le_imp_not_lt _ _ hge
      rw [hlt] at key
      exact key

/-- Witness of C1 on the mock of TestAnalyze_HealthySystem (50% used). -/
theorem disk_check_verdict_witness :
    healthyMock.gatherer.GetDiskUsage "/" =
        (some { UsedPercent := Float64.fin false 50 0 }, none) ∧
      ∃ r, SystemProvider.Analyze amd64 ⟨healthyMock.gatherer⟩ Context.background none =
          Except.ok (some r, none) ∧ r.Shows "SYS-001" true 10 10 := by
  have h := disk_check_verdict amd64 ⟨healthyMock.gatherer⟩ Context.background none
    { UsedPercent := Float64.fin false 50 0 } rfl
  obtain ⟨r, hr⟩ := h.1 (by decide)
  exact ⟨rfl, r, hr, ((h.2 r none hr).1 (by decide))⟩


/-- C2 as stated fails for a CPU count beyond 2^53.  With 2^53 + 3 logical
CPUs (an int64) and a 5-minute load of 2^54 + 8 (a binary64 number) the load
is above 2 * C = 2^54 + 6, but `float64(C)` rounds to 2^53 + 4, the threshold
`cores * 2` is 2^54 + 8, and the load check passes with score 10. -/
theorem load_check_huge_cpu_count :
    hugeMock.gatherer.GetLoadAvg =
        (some { Load5 := Float64.fin false 4503599627370498 2 }, none) ∧
      hugeMock.gatherer.GetNumCPU = 9007199254740995 ∧
      -(2 : Int) ^ 63 ≤ hugeMock.gatherer.GetNumCPU ∧
      hugeMock.gatherer.GetNumCPU < (2 : Int) ^ 63 ∧
      (Float64.fin false 4503599627370498 2).IsBinary64 ∧
      (Float64.fin false 4503599627370498 2).gt
          (exact (2 * hugeMock.gatherer.GetNumCPU)) = true ∧
      ∃ r, SystemProvider.Analyze amd64 ⟨hugeMock.gatherer⟩ Context.background none =
          Except.ok (some r, none) ∧
        r.Shows "SYS-002" true 10 10 ∧ ¬ r.Shows "SYS-002" false 0 10 := by
  refine ⟨rfl, rfl, by decide, by decide, by unfold IsBinary64; decide, by decide, ?_⟩
  refine ⟨_, Analyze_returns amd64 ⟨hugeMock.gatherer⟩ Context.background none
    (by decide) (by decide), ?_, ?_⟩
  · unfold ScanReport.Shows
    decide
  · unfold ScanReport.Shows
    decide

/-- C2, amended.  For every gatherer whose load read succeeds with 5-minute
load average L and whose CPU count C has magnitude at most 2^53: the report
produced by Analyze contains the load check (ID SYS-002), with Passed = true,
Score = 10 and MaxScore = 10 if L <= 2*C, and with Passed = false, Score = 0
and MaxScore = 10 if L > 2*C.  Analyze produces that report as soon as the
disk read does not return a nil pointer with a nil error. -/
theorem load_check_verdict (rt : GoRuntime) (p : SystemProvider) (ctx : Context)
    (cfg : Config) (a : AvgStat) (hl : p.Gatherer.GetLoadAvg = (some a, none))
    (hC : p.Gatherer.GetNumCPU.natAbs ≤ 2 ^ 53) :
    (readNilNil (p.Gatherer.GetDiskUsage "/") = false →
        ∃ r, p.Analyze rt ctx cfg = Except.ok (some r, none)) ∧
      ∀ r e, p.Analyze rt ctx cfg = Except.ok (some r, e) →
        (a.Load5.le (exact (2 * p.Gatherer.GetNumCPU)) = true → r.Shows "SYS-002" true 10 10) ∧
        (a.Load5.gt (exact (2 * p.Gatherer.GetNumCPU)) = true →
          r.Shows "SYS-002" false 0 10) := by
  constructor
  · intro hd
    exact ⟨_, Analyze_returns rt p ctx cfg hd (readNilNil_ok hl)⟩
  · intro r e hr
    obtain ⟨-, -, -, h⟩ := Analyze_ok hr
    have hc : r.Checks = diskPart rt p.Gatherer ++ loadPart rt p.Gatherer := by
      injection h with h; rw [h]
    have key := shows_load hl hc
    rw [gt_threshold_small _ _ hC] at key
    constructor
    · intro hle
      have hgt : a.Load5.gt (exact (2 * p.Gatherer.GetNumCPU)) = false :=
        le_imp_not_lt _ _ hle
      rw [hgt] at key
      exact key
    · intro hgt
      rw [hgt] at key
      exact key

/-- Witness of C2 on the mock of TestAnalyze_UnhealthySystem (load 10 on 2
CPUs). -/
theorem load_check_verdict_witness :
    unhealthyMock.gatherer.GetLoadAvg = (some { Load5 := Float64.fin false 10 0 }, none) ∧
      unhealthyMock.gatherer.GetNumCPU.natAbs ≤ 2 ^ 53 ∧
      ∃ r, SystemProvider.Analyze amd64 ⟨unhealthyMock.gatherer⟩ Context.background none =
          Except.ok (some r, none) ∧ r.Shows "SYS-002" false 0 10 := by
  have h := load_check_verdict amd64 ⟨unhealthyMock.gatherer⟩ Context.background none
    { Load5 := Float64.fin false 10 0 } rfl (by decide)
  obtain ⟨r, hr⟩ := h.1 (by decide)
  exact ⟨rfl, by decide, r, hr, ((h.2 r none hr).2 (by decide))⟩

/-- C3 as stated fails on the zero value of the mock gatherer: both reads
return a nil pointer with a nil error, and Analyze dereferences the nil disk
stat instead of returning. -/
theorem analyze_zero_mock_panics :
    SystemProvider.Analyze amd64 ⟨zeroMock.gatherer⟩ Context.background none =
        Except.error Panic.nilDereference ∧
      ¬ ∃ r e, SystemProvider.Analyze amd64 ⟨zeroMock.gatherer⟩ Context.background none =
        Except.ok (r, e) := by
  have h : SystemProvider.Analyze amd64 ⟨zeroMock.gatherer⟩ Context.background none =
      Except.error Panic.nilDereference := by decide
  refine ⟨h, ?_⟩
  rintro ⟨r, e, hr⟩
  rw [h] at hr
  cases hr

/-- C3, amended.  For every gatherer whose reads return a non-nil stat
whenever they return a nil error, and for every context and config, Analyze
returns a nil error together with a non-nil report; in particular a failed
disk read, a failed load read, or both never turn into an evaluation
error. -/
theorem analyze_returns_report (rt : GoRuntime) (p : SystemProvider) (ctx : Context)
    (cfg : Config) (hw : p.Gatherer.WellBehaved) :
    ∃ r, p.Analyze rt ctx cfg = Except.ok (some r, none) :=
  ⟨_, Analyze_returns rt p ctx cfg hw.1 hw.2⟩

/-- Witness of C3 on the mock of TestAnalyze_HardwareErrors (both reads
fail). -/
theorem analyze_returns_report_witness :
    hardwareErrorMock.gatherer.WellBehaved ∧
      ∃ r, SystemProvider.Analyze amd64 ⟨hardwareErrorMock.gatherer⟩ Context.background none =
        Except.ok (some r, none) :=
  ⟨⟨by decide, by decide⟩,
    analyze_returns_report amd64 ⟨hardwareErrorMock.gatherer⟩ Context.background none
      ⟨by decide, by decide⟩⟩


/-! ### Dropped checks and order -/

theorem loadPart_congr (rt : GoRuntime) {g g' : StatsGatherer}
    (hl : g'.GetLoadAvg = g.GetLoadAvg) (hc : g'.GetNumCPU = g.GetNumCPU) :
    loadPart rt g' = loadPart rt g := by
  unfold loadPart
  rw [hl, hc]

theorem diskPart_congr (rt : GoRuntime) {g g' : StatsGatherer}
    (hd : g'.GetDiskUsage "/" = g.GetDiskUsage "/") : diskPart rt g' = diskPart rt g := by
  unfold diskPart
  rw [hd]

theorem diskPart_ID {rt : GoRuntime} {g : StatsGatherer} {c : CheckResult}
    (h : c ∈ diskPart rt g) : c.ID = "SYS-001" := by
  obtain ⟨u, -, rfl⟩ := mem_diskPart h
  rfl

theorem loadPart_ID {rt : GoRuntime} {g : StatsGatherer} {c : CheckResult}
    (h : c ∈ loadPart rt g) : c.ID = "SYS-002" := by
  obtain ⟨a, -, rfl⟩ := mem_loadPart h
  rfl

theorem filter_loadPart (rt : GoRuntime) (g : StatsGatherer) :
    (loadPart rt g).filter (fun c => c.ID != "SYS-001") = loadPart rt g := by
  rw [List.filter_eq_self]
  intro c hc
  rw [loadPart_ID hc]
  decide

theorem filter_diskPart (rt : GoRuntime) (g : StatsGatherer) :
    (diskPart rt g).filter (fun c => c.ID != "SYS-002") = diskPart rt g := by
  rw [List.filter_eq_self]
  intro c hc
  rw [diskPart_ID hc]
  decide

theorem checks_of_ok {rt : GoRuntime} {p : SystemProvider} {ctx : Context} {cfg : Config}
    {r : ScanReport} {e : Option GoError} (h : p.Analyze rt ctx cfg = Except.ok (some r, e)) :
    r.Checks = diskPart rt p.Gatherer ++ loadPart rt p.Gatherer := by
  obtain ⟨-, -, -, h⟩ := Analyze_ok h
  injection h with h
  rw [h]

/-- C4. A failed read drops exactly its own check.  For every gatherer whose
disk read fails, the report contains no check with ID SYS-001, and its check
sequence is the sequence obtained with a successful disk read (the load read
and the CPU count being the same) minus the disk check, one shorter.
Independently, for every gatherer whose load read fails, the report contains
no check with ID SYS-002, and its check sequence is the sequence obtained
with a successful load read minus the load check.  In both cases the two
reports exist as soon as the other read does not return a nil pointer with a
nil error. -/
theorem failed_read_drops_its_check (rt : GoRuntime) (p p' : SystemProvider)
    (ctx : Context) (cfg : Config) :
    (∀ u, readFailed (p.Gatherer.GetDiskUsage "/") = true →
      p'.Gatherer.GetDiskUsage "/" = (some u, none) →
      p'.Gatherer.GetLoadAvg = p.Gatherer.GetLoadAvg →
      p'.Gatherer.GetNumCPU = p.Gatherer.GetNumCPU →
      (readNilNil p.Gatherer.GetLoadAvg = false →
        ∃ r r', p.Analyze rt ctx cfg = Except.ok (some r, none) ∧
          p'.Analyze rt ctx cfg = Except.ok (some r', none)) ∧
      ∀ r e r' e', p.Analyze rt ctx cfg = Except.ok (some r, e) →
        p'.Analyze rt ctx cfg = Except.ok (some r', e') →
        (∀ c ∈ r.Checks, c.ID ≠ "SYS-001") ∧
          r'.Checks = diskCheck rt u :: r.Checks ∧
          r.Checks = r'.Checks.filter (fun c => c.ID != "SYS-001") ∧
          r.Checks.length + 1 = r'.Checks.length) ∧
    (∀ a, readFailed p.Gatherer.GetLoadAvg = true →
      p'.Gatherer.GetLoadAvg = (some a, none) →
      p'.Gatherer.GetDiskUsage "/" = p.Gatherer.GetDiskUsage "/" →
      (readNilNil (p.Gatherer.GetDiskUsage "/") = false →
        ∃ r r', p.Analyze rt ctx cfg = Except.ok (some r, none) ∧
          p'.Analyze rt ctx cfg = Except.ok (some r', none)) ∧
      ∀ r e r' e', p.Analyze rt ctx cfg = Except.ok (some r, e) →
        p'.Analyze rt ctx cfg = Except.ok (some r', e') →
        (∀ c ∈ r.Checks, c.ID ≠ "SYS-002") ∧
          r'.Checks = r.Checks ++ [loadCheck rt a p'.Gatherer.GetNumCPU] ∧
          r.Checks = r'.Checks.filter (fun c => c.ID != "SYS-002") ∧
          r.Checks.length + 1 = r'.Checks.length) := by
  constructor
  · intro u hf hd' hl' hc'
    constructor
    · intro hl
      exact ⟨_, _, Analyze_returns rt p ctx cfg (readNilNil_failed hf) hl,
        Analyze_returns rt p' ctx cfg (readNilNil_ok hd') (by rw [hl']; exact hl)⟩
    · intro r e r' e' hr hr'
      have h := checks_of_ok hr
      have h' := checks_of_ok hr'
      rw [diskPart_failed hf, List.nil_append] at h
      rw [diskPart_ok hd', loadPart_congr rt hl' hc', ← h] at h'
      refine ⟨?_, h', ?_, ?_⟩
      · intro c hc hid
        rw [h] at hc
        rw [loadPart_ID hc] at hid
        exact absurd hid (by decide)
      · rw [h', List.singleton_append, List.filter_cons_of_neg (by simp [diskCheck_ID])]
        rw [h, filter_loadPart]
      · rw [h']; simp
  · intro a hf hl' hd'
    constructor
    · intro hd
      exact ⟨_, _, Analyze_returns rt p ctx cfg hd (readNilNil_failed hf),
        Analyze_returns rt p' ctx cfg (by rw [hd']; exact hd) (readNilNil_ok hl')⟩
    · intro r e r' e' hr hr'
      have h := checks_of_ok hr
      have h' := checks_of_ok hr'
      rw [loadPart_failed hf, List.append_nil] at h
      rw [loadPart_ok hl', diskPart_congr rt hd', ← h] at h'
      refine ⟨?_, h', ?_, ?_⟩
      · intro c hc hid
        rw [h] at hc
        rw [diskPart_ID hc] at hid
        exact absurd hid (by decide)
      · rw [h', List.filter_append, List.filter_cons_of_neg (by simp [loadCheck_ID])]
        rw [h, filter_diskPart]; simp
      · rw [h']; simp

/-- Witness of C4: the mock of TestAnalyze_HealthySystem with a failing disk
read, against the healthy mock itself. -/
theorem failed_read_drops_its_check_witness :
    ∃ r r',
      SystemProvider.Analyze amd64
          ⟨({ healthyMock with DiskUsage := none,
                               DiskError := some ⟨"disk failure"⟩ } : MockStatsGatherer).gatherer⟩
          Context.background none = Except.ok (some r, none) ∧
        SystemProvider.Analyze amd64 ⟨healthyMock.gatherer⟩ Context.background none =
          Except.ok (some r', none) ∧
        (∀ c ∈ r.Checks, c.ID ≠ "SYS-001") ∧
        r.Checks = r'.Checks.filter (fun c => c.ID != "SYS-001") ∧
        r.Checks.length + 1 = r'.Checks.length := by
  have h := (failed_read_drops_its_check amd64
    ⟨({ healthyMock with DiskUsage := none,
                         DiskError := some ⟨"disk failure"⟩ } : MockStatsGatherer).gatherer⟩
    ⟨healthyMock.gatherer⟩ Context.background none).1
    { UsedPercent := Float64.fin false 50 0 } (by decide) rfl rfl rfl
  obtain ⟨r, r', hr, hr'⟩ := h.1 (by decide)
  obtain ⟨h₁, -, h₃, h₄⟩ := h.2 r none r' none hr hr'
  exact ⟨r, r', hr, hr', h₁, h₃, h₄⟩

/-- C5. For every gatherer whose disk read and load read both fail, whatever
its CPU count, Analyze returns a report whose check sequence is empty, and
returns no error. -/
theorem both_reads_fail_empty_report (rt : GoRuntime) (p : SystemProvider) (ctx : Context)
    (cfg : Config) (hd : readFailed (p.Gatherer.GetDiskUsage "/") = true)
    (hl : readFailed p.Gatherer.GetLoadAvg = true) :
    ∃ r, p.Analyze rt ctx cfg = Except.ok (some r, none) ∧ r.Checks = [] := by
  refine ⟨_, Analyze_returns rt p ctx cfg (readNilNil_failed hd) (readNilNil_failed hl), ?_⟩
  simp [diskPart_failed hd, loadPart_failed hl]

/-- Witness of C5 on the mock of TestAnalyze_HardwareErrors. -/
theorem both_reads_fail_empty_report_witness :
    readFailed (hardwareErrorMock.gatherer.GetDiskUsage "/") = true ∧
      readFailed hardwareErrorMock.gatherer.GetLoadAvg = true ∧
      ∃ r, SystemProvider.Analyze amd64 ⟨hardwareErrorMock.gatherer⟩ Context.background none =
        Except.ok (some r, none) ∧ r.Checks = [] :=
  ⟨by decide, by decide,
    both_reads_fail_empty_report amd64 ⟨hardwareErrorMock.gatherer⟩ Context.background none
      (by decide) (by decide)⟩

/-- C6. For every gatherer whose disk read and load read both succeed, the
report has exactly two checks, the disk check (ID SYS-001) at index 0 and the
load check (ID SYS-002) at index 1; and in every report a check with ID
SYS-001 stands before a check with ID SYS-002. -/
theorem disk_check_before_load_check (rt : GoRuntime) (p : SystemProvider) (ctx : Context)
    (cfg : Config) :
    (∀ u a, p.Gatherer.GetDiskUsage "/" = (some u, none) →
      p.Gatherer.GetLoadAvg = (some a, none) →
      ∃ r, p.Analyze rt ctx cfg = Except.ok (some r, none) ∧
        r.Checks = [diskCheck rt u, loadCheck rt a p.Gatherer.GetNumCPU] ∧
        r.Checks.length = 2 ∧ r.Checks.map (fun c => c.ID) = ["SYS-001", "SYS-002"]) ∧
    ∀ r e, p.Analyze rt ctx cfg = Except.ok (some r, e) →
      ∀ (i j : Nat) (c₁ c₂ : CheckResult), r.Checks[i]? = some c₁ → r.Checks[j]? = some c₂ →
        c₁.ID = "SYS-001" → c₂.ID = "SYS-002" → i < j := by
  constructor
  · intro u a hd hl
    refine ⟨_, Analyze_returns rt p ctx cfg (readNilNil_ok hd) (readNilNil_ok hl), ?_, ?_, ?_⟩
    · simp [diskPart_ok hd, loadPart_ok hl]
    · simp [diskPart_ok hd, loadPart_ok hl]
    · simp [diskPart_ok hd, loadPart_ok hl, diskCheck_ID, loadCheck_ID]
  · intro r e hr i j c₁ c₂ hi hj h₁ h₂
    have h := checks_of_ok hr
    rw [h] at hi hj
    have hi' : i < (diskPart rt p.Gatherer).length := by
      by_contra hcon
      rw [List.getElem?_append_right (Nat.le_of_not_lt hcon)] at hi
      rw [loadPart_ID (List.getElem?_mem hi)] at h₁
      exact absurd h₁ (by decide)
    have hj' : (diskPart rt p.Gatherer).length ≤ j := by
      by_contra hcon
      rw [List.getElem?_append_left (Nat.lt_of_not_le hcon)] at hj
      rw [diskPart_ID (List.getElem?_mem hj)] at h₂
      exact absurd h₂ (by decide)
    exact Nat.lt_of_lt_of_le hi' hj'

/-- Witness of C6 on the mock of TestAnalyze_HealthySystem. -/
theorem disk_check_before_load_check_witness :
    ∃ r, SystemProvider.Analyze amd64 ⟨healthyMock.gatherer⟩ Context.background none =
        Except.ok (some r, none) ∧
      r.Checks.length = 2 ∧ r.Checks.map (fun c => c.ID) = ["SYS-001", "SYS-002"] := by
  obtain ⟨r, hr, -, h₂, h₃⟩ :=
    (disk_check_before_load_check amd64 ⟨healthyMock.gatherer⟩ Context.background none).1
      { UsedPercent := Float64.fin false 50 0 } { Load5 := Float64.fin false 1 0 } rfl rfl
  exact ⟨r, hr, h₂, h₃⟩


/-! ### Scoring, inputs and state -/

theorem diskCheck_scoring (rt : GoRuntime) (u : UsageStat) :
    (diskCheck rt u).MaxScore = 10 ∧
      ((diskCheck rt u).Passed = true ∧ (diskCheck rt u).Score = 10 ∨
        (diskCheck rt u).Passed = false ∧ (diskCheck rt u).Score = 0) := by
  unfold diskCheck
  cases u.UsedPercent.lt ninety <;> simp

theorem loadCheck_scoring (rt : GoRuntime) (a : AvgStat) (n : Int) :
    (loadCheck rt a n).MaxScore = 10 ∧
      ((loadCheck rt a n).Passed = true ∧ (loadCheck rt a n).Score = 10 ∨
        (loadCheck rt a n).Passed = false ∧ (loadCheck rt a n).Score = 0) := by
  unfold loadCheck
  cases a.Load5.gt ((ofInt n).mul two) <;> simp

theorem afterCalls_eq (rt : GoRuntime) (p : SystemProvider) (calls : List (Context × Config)) :
    p.afterCalls rt calls = p := by
  induction calls with
  | nil => rfl
  | cons c rest ih =>
    obtain ⟨ctx, cfg⟩ := c
    simpa [SystemProvider.afterCalls, SystemProvider.AnalyzeStep] using ih

/-- C7. Binary scoring: for every gatherer, every check in the report
produced by Analyze has Score equal to 0 or to its MaxScore, never a value
strictly between; Score = MaxScore exactly when Passed is true, and Score = 0
exactly when Passed is false. -/
theorem binary_scoring (rt : GoRuntime) (p : SystemProvider) (ctx : Context) (cfg : Config)
    (r : ScanReport) (e : Option GoError)
    (hr : p.Analyze rt ctx cfg = Except.ok (some r, e)) :
    ∀ c ∈ r.Checks,
      (c.Score = 0 ∨ c.Score = c.MaxScore) ∧ ¬ (0 < c.Score ∧ c.Score < c.MaxScore) ∧
        (c.Score = c.MaxScore ↔ c.Passed = true) ∧ (c.Score = 0 ↔ c.Passed = false) := by
  intro c hc
  rw [checks_of_ok hr] at hc
  have key : c.MaxScore = 10 ∧
      (c.Passed = true ∧ c.Score = 10 ∨ c.Passed = false ∧ c.Score = 0) := by
    rcases List.mem_append.mp hc with h | h
    · obtain ⟨u, -, rfl⟩ := mem_diskPart h
      exact diskCheck_scoring rt u
    · obtain ⟨a, -, rfl⟩ := mem_loadPart h
      exact loadCheck_scoring rt a _
  obtain ⟨hmax, ⟨hp, hs⟩ | ⟨hp, hs⟩⟩ := key <;> rw [hmax, hp, hs] <;> simp

/-- Witness of C7 on the mock of TestAnalyze_UnhealthySystem. -/
theorem binary_scoring_witness :
    ∃ r, SystemProvider.Analyze amd64 ⟨unhealthyMock.gatherer⟩ Context.background none =
        Except.ok (some r, none) ∧ r.Checks.length = 2 ∧
      ∀ c ∈ r.Checks,
        (c.Score = 0 ∨ c.Score = c.MaxScore) ∧ ¬ (0 < c.Score ∧ c.Score < c.MaxScore) ∧
          (c.Score = c.MaxScore ↔ c.Passed = true) ∧ (c.Score = 0 ↔ c.Passed = false) :=
  ⟨_, Analyze_returns amd64 ⟨unhealthyMock.gatherer⟩ Context.background none
      (by decide) (by decide), by decide,
    binary_scoring amd64 ⟨unhealthyMock.gatherer⟩ Context.background none _ none
      (Analyze_returns amd64 ⟨unhealthyMock.gatherer⟩ Context.background none
        (by decide) (by decide))⟩

/-- C8. Analyze reads disk usage for the root path "/" and for no other
path: two gatherers that give the same disk result for the path "/", the same
load result and the same CPU count get the same outcome of Analyze, however
they answer for other paths. -/
theorem reads_root_path_only (rt : GoRuntime) (g₁ g₂ : StatsGatherer) (ctx : Context)
    (cfg : Config) (hd : g₁.GetDiskUsage "/" = g₂.GetDiskUsage "/")
    (hl : g₁.GetLoadAvg = g₂.GetLoadAvg) (hc : g₁.GetNumCPU = g₂.GetNumCPU) :
    SystemProvider.Analyze rt ⟨g₁⟩ ctx cfg = SystemProvider.Analyze rt ⟨g₂⟩ ctx cfg := by
  rw [Analyze_eq, Analyze_eq]
  simp only [diskPart_congr rt hd, loadPart_congr rt hl hc, hd, hl]

/-- Witness of C8: the healthy mock and a gatherer that fails for every path
but "/" get the same report with two checks. -/
theorem reads_root_path_only_witness :
    healthyMock.gatherer.GetDiskUsage "/home" ≠ rootOnlyGatherer.GetDiskUsage "/home" ∧
      SystemProvider.Analyze amd64 ⟨healthyMock.gatherer⟩ Context.background none =
        SystemProvider.Analyze amd64 ⟨rootOnlyGatherer⟩ Context.background none ∧
      ∃ r, SystemProvider.Analyze amd64 ⟨rootOnlyGatherer⟩ Context.background none =
        Except.ok (some r, none) ∧ r.Checks.length = 2 :=
  ⟨by decide,
    reads_root_path_only amd64 healthyMock.gatherer rootOnlyGatherer Context.background none
      rfl rfl rfl,
    _, Analyze_returns amd64 ⟨rootOnlyGatherer⟩ Context.background none (by decide) (by decide),
    by decide⟩

/-- C9. For every gatherer, if the report produced by Analyze has fewer than
two checks then at least one of the disk read and the load read failed; the
number of checks is the number of successful reads among the two. -/
theorem check_count_is_successful_reads (rt : GoRuntime) (p : SystemProvider) (ctx : Context)
    (cfg : Config) (r : ScanReport) (e : Option GoError)
    (hr : p.Analyze rt ctx cfg = Except.ok (some r, e)) :
    (r.Checks.length < 2 →
        readFailed (p.Gatherer.GetDiskUsage "/") = true ∨
          readFailed p.Gatherer.GetLoadAvg = true) ∧
      r.Checks.length =
        (readOk (p.Gatherer.GetDiskUsage "/")).toNat + (readOk p.Gatherer.GetLoadAvg).toNat := by
  obtain ⟨hd, hl, -, -⟩ := Analyze_ok hr
  have hlen : r.Checks.length =
      (readOk (p.Gatherer.GetDiskUsage "/")).toNat + (readOk p.Gatherer.GetLoadAvg).toNat := by
    rw [checks_of_ok hr, List.length_append, diskPart_length, loadPart_length]
  refine ⟨?_, hlen⟩
  intro hlt
  rw [hlen] at hlt
  cases hdo : readOk (p.Gatherer.GetDiskUsage "/")
  · rcases readOk_false_cases _ hdo with h | h
    · rw [hd] at h; cases h
    · exact Or.inl h
  · cases hlo : readOk p.Gatherer.GetLoadAvg
    · rcases readOk_false_cases _ hlo with h | h
      · rw [hl] at h; cases h
      · exact Or.inr h
    · rw [hdo, hlo] at hlt
      simp at hlt

/-- Witness of C9: the healthy mock with a failing load read has one check. -/
theorem check_count_is_successful_reads_witness :
    ∃ r, SystemProvider.Analyze amd64
          ⟨({ healthyMock with LoadAvg := none,
                               LoadError := some ⟨"load read error"⟩ } : MockStatsGatherer).gatherer⟩
          Context.background none = Except.ok (some r, none) ∧
      r.Checks.length = 1 :=
  ⟨_, Analyze_returns amd64 _ Context.background none (by decide) (by decide),
    (check_count_is_successful_reads amd64
      ⟨({ healthyMock with LoadAvg := none,
                           LoadError := some ⟨"load read error"⟩ } : MockStatsGatherer).gatherer⟩
      Context.background none _ none
      (Analyze_returns amd64 _ Context.background none (by decide) (by decide))).2⟩

/-- C10. Analyze is stateless and deterministic: two invocations whose
gatherers return the same disk result for "/", the same load result and the
same CPU count have the same outcome, whatever calls of Analyze ran before
each of them and whatever context and config are passed. -/
theorem analyze_stateless (rt : GoRuntime) (g₁ g₂ : StatsGatherer)
    (before₁ before₂ : List (Context × Config)) (ctx₁ ctx₂ : Context) (cfg₁ cfg₂ : Config)
    (hd : g₁.GetDiskUsage "/" = g₂.GetDiskUsage "/")
    (hl : g₁.GetLoadAvg = g₂.GetLoadAvg) (hc : g₁.GetNumCPU = g₂.GetNumCPU) :
    ((SystemProvider.mk g₁).afterCalls rt before₁).Analyze rt ctx₁ cfg₁ =
      ((SystemProvider.mk g₂).afterCalls rt before₂).Analyze rt ctx₂ cfg₂ := by
  rw [afterCalls_eq, afterCalls_eq, Analyze_eq, Analyze_eq]
  simp only [diskPart_congr rt hd, loadPart_congr rt hl hc, hd, hl]

/-- Witness of C10: the healthy mock, fresh with a nil config, and after two
earlier calls with another context and a non-nil config. -/
theorem analyze_stateless_witness :
    ((SystemProvider.mk healthyMock.gatherer).afterCalls amd64 []).Analyze amd64
        Context.background none =
      ((SystemProvider.mk healthyMock.gatherer).afterCalls amd64
        [(Context.todo, none), (Context.background, some [("verbose", "true")])]).Analyze amd64
        Context.todo (some [("threshold", "50")]) :=
  analyze_stateless amd64 healthyMock.gatherer healthyMock.gatherer [] _ _ _ _ _ rfl rfl rfl

/-! ### Independence, nil safety and constant fields -/

theorem filter_disk_id (rt : GoRuntime) (g : StatsGatherer) :
    (diskPart rt g ++ loadPart rt g).filter (fun c => c.ID == "SYS-001") = diskPart rt g := by
  have h₁ : (diskPart rt g).filter (fun c => c.ID == "SYS-001") = diskPart rt g := by
    rw [List.filter_eq_self]
    intro c hc
    rw [diskPart_ID hc]
    decide
  have h₂ : (loadPart rt g).filter (fun c => c.ID == "SYS-001") = [] := by
    rw [List.filter_eq_nil_iff]
    intro c hc
    rw [loadPart_ID hc]
    decide
  rw [List.filter_append, h₁, h₂, List.append_nil]

theorem filter_load_id (rt : GoRuntime) (g : StatsGatherer) :
    (diskPart rt g ++ loadPart rt g).filter (fun c => c.ID == "SYS-002") = loadPart rt g := by
  have h₁ : (diskPart rt g).filter (fun c => c.ID == "SYS-002") = [] := by
    rw [List.filter_eq_nil_iff]
    intro c hc
    rw [diskPart_ID hc]
    decide
  have h₂ : (loadPart rt g).filter (fun c => c.ID == "SYS-002") = loadPart rt g := by
    rw [List.filter_eq_self]
    intro c hc
    rw [loadPart_ID hc]
    decide
  rw [List.filter_append, h₁, h₂, List.nil_append]

theorem ids_nodup (rt : GoRuntime) (g : StatsGatherer) :
    ((diskPart rt g ++ loadPart rt g).map (fun c => c.ID)).Nodup := by
  unfold diskPart loadPart
  rcases hd : g.GetDiskUsage "/" with ⟨_ | du, _ | de⟩ <;>
    rcases hl : g.GetLoadAvg with ⟨_ | la, _ | le⟩ <;>
    simp [diskCheck_ID, loadCheck_ID]

/-- C11. The two checks are independent.  Two runs of Analyze with the same
disk read result have the same disk check in their reports (present or
absent, with the same Passed, Score, Description and every other field),
however the load read result and the CPU count differ; two runs with the same
load read result and the same CPU count have the same load check, however the
disk read result differs.  Both reports exist as soon as no read returns a
nil pointer with a nil error. -/
theorem checks_independent (rt : GoRuntime) (p p' : SystemProvider) (ctx ctx' : Context)
    (cfg cfg' : Config) :
    (p.Gatherer.WellBehaved → p'.Gatherer.WellBehaved →
        ∃ r r', p.Analyze rt ctx cfg = Except.ok (some r, none) ∧
          p'.Analyze rt ctx' cfg' = Except.ok (some r', none)) ∧
      ∀ r e r' e', p.Analyze rt ctx cfg = Except.ok (some r, e) →
        p'.Analyze rt ctx' cfg' = Except.ok (some r', e') →
        (p'.Gatherer.GetDiskUsage "/" = p.Gatherer.GetDiskUsage "/" →
          r'.Checks.filter (fun c => c.ID == "SYS-001") =
            r.Checks.filter (fun c => c.ID == "SYS-001")) ∧
        (p'.Gatherer.GetLoadAvg = p.Gatherer.GetLoadAvg →
          p'.Gatherer.GetNumCPU = p.Gatherer.GetNumCPU →
          r'.Checks.filter (fun c => c.ID == "SYS-002") =
            r.Checks.filter (fun c => c.ID == "SYS-002")) := by
  constructor
  · intro hw hw'
    exact ⟨_, _, Analyze_returns rt p ctx cfg hw.1 hw.2,
      Analyze_returns rt p' ctx' cfg' hw'.1 hw'.2⟩
  · intro r e r' e' hr hr'
    rw [checks_of_ok hr, checks_of_ok hr', filter_disk_id, filter_disk_id,
      filter_load_id, filter_load_id]
    exact ⟨fun hd => diskPart_congr rt hd, fun hl hc => loadPart_congr rt hl hc⟩

/-- Witness of C11: the healthy and the unhealthy mock with the disk read of
the healthy one have the same disk check and different load checks. -/
theorem checks_independent_witness :
    ∃ r r',
      SystemProvider.Analyze amd64 ⟨healthyMock.gatherer⟩ Context.background none =
          Except.ok (some r, none) ∧
        SystemProvider.Analyze amd64
          ⟨({ unhealthyMock with DiskUsage := healthyMock.DiskUsage } : MockStatsGatherer).gatherer⟩
          Context.todo none = Except.ok (some r', none) ∧
        r'.Checks.filter (fun c => c.ID == "SYS-001") =
          r.Checks.filter (fun c => c.ID == "SYS-001") ∧
        r.Checks.filter (fun c => c.ID == "SYS-001") ≠ [] ∧
        r'.Checks.filter (fun c => c.ID == "SYS-002") ≠
          r.Checks.filter (fun c => c.ID == "SYS-002") := by
  have h := checks_independent amd64 ⟨healthyMock.gatherer⟩
    ⟨({ unhealthyMock with DiskUsage := healthyMock.DiskUsage } : MockStatsGatherer).gatherer⟩
    Context.background Context.todo none none
  obtain ⟨r, r', hr, hr'⟩ := h.1 ⟨by decide, by decide⟩ ⟨by decide, by decide⟩
  refine ⟨r, r', hr, hr', (h.2 r none r' none hr hr').1 rfl, ?_, ?_⟩
  · rw [checks_of_ok hr]; decide
  · rw [checks_of_ok hr, checks_of_ok hr']; decide

/-- C12. Analyze dereferences a stat only on the success branch of its read:
for every gatherer whose reads return a non-nil stat whenever they return a
nil error, Analyze does not panic with a nil dereference and returns, also
when a failed read returns a nil stat together with its error. -/
theorem no_nil_dereference (rt : GoRuntime) (p : SystemProvider) (ctx : Context)
    (cfg : Config)
    (hdisk : ∀ path, (p.Gatherer.GetDiskUsage path).2 = none →
      (p.Gatherer.GetDiskUsage path).1 ≠ none)
    (hload : p.Gatherer.GetLoadAvg.2 = none → p.Gatherer.GetLoadAvg.1 ≠ none) :
    p.Analyze rt ctx cfg ≠ Except.error Panic.nilDereference ∧
      ∃ out, p.Analyze rt ctx cfg = Except.ok out := by
  have hd : readNilNil (p.Gatherer.GetDiskUsage "/") = false := by
    have := hdisk "/"
    rcases h : p.Gatherer.GetDiskUsage "/" with ⟨_ | du, _ | de⟩ <;>
      simp_all [readNilNil]
  have hl : readNilNil p.Gatherer.GetLoadAvg = false := by
    rcases h : p.Gatherer.GetLoadAvg with ⟨_ | la, _ | le⟩ <;>
      simp_all [readNilNil]
  have hret := Analyze_returns rt p ctx cfg hd hl
  refine ⟨?_, _, hret⟩
  rw [hret]
  intro h
  cases h

/-- Witness of C12 on the mock of TestAnalyze_HardwareErrors, whose two
reads return a nil stat together with their error. -/
theorem no_nil_dereference_witness :
    hardwareErrorMock.gatherer.GetDiskUsage "/" = (none, some ⟨"disk failure"⟩) ∧
      hardwareErrorMock.gatherer.GetLoadAvg = (none, some ⟨"load read error"⟩) ∧
      SystemProvider.Analyze amd64 ⟨hardwareErrorMock.gatherer⟩ Context.background none ≠
        Except.error Panic.nilDereference :=
  ⟨rfl, rfl,
    (no_nil_dereference amd64 ⟨hardwareErrorMock.gatherer⟩ Context.background none
      (fun _ h => absurd h (Option.some_ne_none _)) (fun h => absurd h (by decide))).1⟩

theorem pluginID_of_ok {rt : GoRuntime} {p : SystemProvider} {ctx : Context} {cfg : Config}
    {r : ScanReport} {e : Option GoError} (h : p.Analyze rt ctx cfg = Except.ok (some r, e)) :
    r.PluginID = "provider-system" := by
  obtain ⟨-, -, -, h⟩ := Analyze_ok h
  injection h with h
  rw [h]

/-- C13. The identifying fields of the checks are constants, independent of
the readings: every disk check has ID "SYS-001", Name "Root Disk Usage",
MaxScore 10 and Remediation "Clean up disk space or expand the volume.";
every load check has ID "SYS-002", Name "System Load (5m)", MaxScore 10 and
Remediation "Check running processes, upgrade CPU or optimize workloads.";
every check of a report is one of the two, and no report contains two checks
with the same ID. -/
theorem check_identity_constants (rt : GoRuntime) (p : SystemProvider) (ctx : Context)
    (cfg : Config) :
    (p.Gatherer.WellBehaved → ∃ r, p.Analyze rt ctx cfg = Except.ok (some r, none)) ∧
      (∀ u, (diskCheck rt u).ID = "SYS-001" ∧ (diskCheck rt u).Name = "Root Disk Usage" ∧
        (diskCheck rt u).MaxScore = 10 ∧
        (diskCheck rt u).Remediation = "Clean up disk space or expand the volume.") ∧
      (∀ a n, (loadCheck rt a n).ID = "SYS-002" ∧ (loadCheck rt a n).Name = "System Load (5m)" ∧
        (loadCheck rt a n).MaxScore = 10 ∧
        (loadCheck rt a n).Remediation =
          "Check running processes, upgrade CPU or optimize workloads.") ∧
      ∀ r e, p.Analyze rt ctx cfg = Except.ok (some r, e) →
        (∀ c ∈ r.Checks, c.ID = "SYS-001" →
          c.Name = "Root Disk Usage" ∧ c.MaxScore = 10 ∧
            c.Remediation = "Clean up disk space or expand the volume.") ∧
        (∀ c ∈ r.Checks, c.ID = "SYS-002" →
          c.Name = "System Load (5m)" ∧ c.MaxScore = 10 ∧
            c.Remediation = "Check running processes, upgrade CPU or optimize workloads.") ∧
        (∀ c ∈ r.Checks, c.ID = "SYS-001" ∨ c.ID = "SYS-002") ∧
        (r.Checks.map (fun c => c.ID)).Nodup := by
  refine ⟨fun hw => ⟨_, Analyze_returns rt p ctx cfg hw.1 hw.2⟩,
    fun u => ⟨rfl, rfl, rfl, rfl⟩, fun a n => ⟨rfl, rfl, rfl, rfl⟩, ?_⟩
  intro r e hr
  have h := checks_of_ok hr
  refine ⟨?_, ?_, ?_, ?_⟩
  · intro c hc hid
    rw [h] at hc
    rcases List.mem_append.mp hc with hm | hm
    · obtain ⟨u, -, rfl⟩ := mem_diskPart hm
      exact ⟨rfl, rfl, rfl⟩
    · rw [loadPart_ID hm] at hid
      exact absurd hid (by decide)
  · intro c hc hid
    rw [h] at hc
    rcases List.mem_append.mp hc with hm | hm
    · rw [diskPart_ID hm] at hid
      exact absurd hid (by decide)
    · obtain ⟨a, -, rfl⟩ := mem_loadPart hm
      exact ⟨rfl, rfl, rfl⟩
  · intro c hc
    rw [h] at hc
    rcases List.mem_append.mp hc with hm | hm
    · exact Or.inl (diskPart_ID hm)
    · exact Or.inr (loadPart_ID hm)
  · rw [h]
    exact ids_nodup rt p.Gatherer

/-- Witness of C13 on the mock of TestAnalyze_UnhealthySystem: two checks,
with the two distinct identifiers. -/
theorem check_identity_constants_witness :
    ∃ r, SystemProvider.Analyze amd64 ⟨unhealthyMock.gatherer⟩ Context.background none =
        Except.ok (some r, none) ∧
      r.Checks.length = 2 ∧ (r.Checks.map (fun c => c.ID)).Nodup := by
  have h := check_identity_constants amd64 ⟨unhealthyMock.gatherer⟩ Context.background none
  obtain ⟨r, hr⟩ := h.1 ⟨by decide, by decide⟩
  refine ⟨r, hr, ?_, (h.2.2.2 r none hr).2.2.2⟩
  rw [checks_of_ok hr]
  decide

/-- C14. For every gatherer, the PluginID of the report returned by Analyze
is "provider-system" and equals the ID of the descriptor returned by Info,
whichever checks are present or missing.  The report is returned as soon as
no read returns a nil pointer with a nil error. -/
theorem plugin_id_matches_descriptor (rt : GoRuntime) (p : SystemProvider) (ctx : Context)
    (cfg : Config) :
    (p.Gatherer.WellBehaved → ∃ r, p.Analyze rt ctx cfg = Except.ok (some r, none)) ∧
      ∀ r e, p.Analyze rt ctx cfg = Except.ok (some r, e) →
        r.PluginID = "provider-system" ∧ r.PluginID = p.Info.ID := by
  refine ⟨fun hw => ⟨_, Analyze_returns rt p ctx cfg hw.1 hw.2⟩, ?_⟩
  intro r e hr
  have h := pluginID_of_ok hr
  exact ⟨h, by rw [h]; rfl⟩

/-- Witness of C14 on the mock of TestAnalyze_HardwareErrors, whose report
has no check. -/
theorem plugin_id_matches_descriptor_witness :
    ∃ r, SystemProvider.Analyze amd64 ⟨hardwareErrorMock.gatherer⟩ Context.background none =
        Except.ok (some r, none) ∧
      r.Checks = [] ∧ r.PluginID = "provider-system" ∧
      r.PluginID = (SystemProvider.mk hardwareErrorMock.gatherer).Info.ID := by
  have h := plugin_id_matches_descriptor amd64 ⟨hardwareErrorMock.gatherer⟩
    Context.background none
  obtain ⟨r, hr⟩ := h.1 ⟨by decide, by decide⟩
  refine ⟨r, hr, ?_, (h.2 r none hr).1, (h.2 r none hr).2⟩
  rw [checks_of_ok hr]
  decide


end ProviderSystem
